import Mathlib

/-!
Verification of the moltworker backup-sync engine, boot/restore protocol and
relay bridge against their natural-language specification.

The TypeScript sources are shallowly embedded: JavaScript strings are modelled
as Lean `String`s (or as lists of UTF-16 code units where character codes
matter), `parseInt` and truthiness get explicit executable models, thrown
exceptions become an explicit `Except`-style outcome on each external call,
and the sequence of container commands issued by a sync attempt is returned
alongside the `SyncResult` so ordering claims can be stated.
-/

namespace Moltworker

/-- JavaScript truthiness of an optional string value (`undefined` and the
empty string are falsy). -/
def jsTruthy : Option String → Bool
  | none => false
  | some s => !s.toList.isEmpty

/-- JavaScript `s || d` on strings: `d` when `s` is empty, else `s`. -/
def jsOrStr (s d : String) : String :=
  if s.toList.isEmpty then d else s

/-- Model of JavaScript `String.prototype.trim`: strip leading and trailing
whitespace.  (Implemented by structural recursion over the character list so
that concrete instances evaluate.) -/
def jsTrim (s : String) : String :=
  String.mk (((s.toList.dropWhile Char.isWhitespace).reverse.dropWhile
    Char.isWhitespace).reverse)

/-- Model of JavaScript `String.prototype.slice(0, n)`. -/
def jsSlice (s : String) (n : Nat) : String :=
  String.mk (s.toList.take n)

/-- Does the list `hay` start with `needle`?  Model of prefix testing used by
the substring check below. -/
def listStartsWith : List Char → List Char → Bool
  | _, [] => true
  | [], _ :: _ => false
  | a :: hay, b :: needle => a == b && listStartsWith hay needle

/-- Model of JavaScript `String.prototype.includes`: `sub` occurs contiguously
somewhere in `s`. -/
def jsIncludes (s sub : String) : Bool :=
  (List.range (s.toList.length + 1)).any fun i =>
    listStartsWith (s.toList.drop i) sub.toList

/-- Fuel-driven splitter: cut `l` at each leftmost occurrence of the
non-empty separator `sep`; `acc` holds the current (reversed) fragment.  The
fuel is an upper bound on the number of consumed characters, so the
definition is structurally recursive and evaluates in the kernel. -/
def listSplitOnFuel (sep : List Char) : Nat → List Char → List Char → List (List Char)
  | _, [], acc => [acc.reverse]
  | 0, l, acc => [acc.reverse ++ l]
  | fuel + 1, c :: rest, acc =>
    if listStartsWith (c :: rest) sep then
      acc.reverse :: listSplitOnFuel sep fuel ((c :: rest).drop sep.length) []
    else
      listSplitOnFuel sep fuel rest (c :: acc)

/-- Model of JavaScript `String.prototype.split(sep)` for a non-empty
separator: leftmost, non-overlapping cuts. -/
def jsSplit (s sep : String) : List String :=
  (listSplitOnFuel sep.toList s.toList.length s.toList []).map String.mk

/-- Value of a decimal digit character. -/
def digitVal (c : Char) : Nat := c.toNat - 48

/-- Model of JavaScript `parseInt(s, 10)`: skip surrounding whitespace, read an
optional sign and then the longest prefix of decimal digits; `none` models
`NaN` (no digits at all). -/
def jsParseInt (s : String) : Option Int :=
  let cs := s.toList.dropWhile Char.isWhitespace
  let signed : Int × List Char :=
    match cs with
    | '-' :: t => (-1, t)
    | '+' :: t => (1, t)
    | t => (1, t)
  let ds := signed.2.takeWhile Char.isDigit
  if ds.isEmpty then none
  else some (signed.1 * (ds.foldl (fun a c => a * 10 + digitVal c) 0 : Nat))

/-- Rendering of a `parseInt` result in a template literal: `NaN` when no
number was parsed. -/
def jsNumStr : Option Int → String
  | none => "NaN"
  | some n => toString n

/-- First ten characters match the regex `^\d{4}-\d{2}-\d{2}` used to verify
the re-read last-sync timestamp. -/
def isDateShaped (s : String) : Bool :=
  match s.toList with
  | a :: b :: c :: d :: e :: f :: g :: h :: i :: j :: _ =>
    a.isDigit && b.isDigit && c.isDigit && d.isDigit && e == '-' &&
    f.isDigit && g.isDigit && h == '-' && i.isDigit && j.isDigit
  | _ => false

/-- Outcome of an awaited external call: `ok` with its value, or a thrown
JavaScript exception.  `throwMsg (some m)` is an `Error` with message `m`;
`throwMsg none` is a non-`Error` thrown value. -/
inductive JsOutcome (α : Type) where
  | ok (a : α)
  | throwMsg (m : Option String)
deriving DecidableEq

/-- Model of `err instanceof Error ? err.message : 'Unknown error'`. -/
def exnMsg : Option String → String
  | some m => m
  | none => "Unknown error"

/-- Captured logs of a sandbox process (`stdout`/`stderr` may be absent). -/
structure Logs where
  stdout : Option String := none
  stderr : Option String := none
deriving DecidableEq

/-- Result of `waitForOutput` (sentinel polling). -/
structure FoundResult where
  found : Bool
  stdout : String
  stderr : String
deriving DecidableEq

/-- The shape returned by `syncToR2` (src/gateway/sync.ts). -/
structure SyncResult where
  success : Bool
  lastSync : Option String := none
  error : Option String := none
  details : Option String := none
deriving DecidableEq

/-- Options accepted by `syncToR2`; `force` defaults to `false`. -/
structure SyncOptions where
  force : Option Bool := none
deriving DecidableEq

/-- Worker environment bindings that `syncToR2` consults. -/
structure MoltbotEnv where
  R2_ACCESS_KEY_ID : Option String := none
  R2_SECRET_ACCESS_KEY : Option String := none
  CF_ACCOUNT_ID : Option String := none
deriving DecidableEq

/-- Everything the container/world supplies to one `syncToR2` attempt: the
mount outcome, the observed logs (or exception) of each probe command, the
current epoch used for the age computation, and the outcome of the
archive/upload sentinel wait and of the final timestamp read. -/
structure SyncWorld where
  mounted : Bool
  restore : JsOutcome Logs
  age : JsOutcome Logs
  state : JsOutcome Logs
  nowEpoch : Int
  syncRun : JsOutcome FoundResult
  timestamp : JsOutcome Logs
deriving DecidableEq

/-- Container commands issued by `syncToR2`, in the order `startProcess` is
called on them. -/
inductive Cmd where
  | checkRestore
  | checkAge
  | checkState
  | rmLastSync
  | archiveUpload
  | readTimestamp
deriving DecidableEq

/-- The three safety-gate probes (checks A, B, C). -/
def Cmd.isCheck : Cmd → Bool
  | .checkRestore => true
  | .checkAge => true
  | .checkState => true
  | _ => false

/-- Commands that write to or delete from the durable store.  The gate probes
and the timestamp read only read state. -/
def Cmd.isStoreMutating : Cmd → Bool
  | .rmLastSync => true
  | .archiveUpload => true
  | _ => false

/-- Modelled from the spec: the minimum container age threshold
`MIN_BOOT_AGE_SECONDS` lives in `src/config.ts`, which is not among the
provided sources; the spec (§8) fixes the threshold at 600 seconds, matching
the unit tests' expected detail string "minimum is 600s". -/
def MIN_BOOT_AGE_SECONDS : Int := 600

/-- Safety-gate check A (sync.ts lines 57-78): the restore-complete marker
must exist.  `none` means the check passed; `some r` is the early return. -/
def checkRestoreStep (w : SyncWorld) : Option SyncResult :=
  match w.restore with
  | .throwMsg e =>
    some { success := false, error := some "Failed to check restore-complete marker",
           details := some (exnMsg e) }
  | .ok logs =>
    if jsIncludes (logs.stdout.getD "") "ok" then none
    else
      some { success := false, error := some "Sync aborted: restore not complete",
             details := some "The .restore-complete marker is missing. The container may still be booting or is using an old startup script." }

/-- Safety-gate check B (sync.ts lines 81-113): boot timestamp must parse and
the container age must reach `MIN_BOOT_AGE_SECONDS`. -/
def checkAgeStep (w : SyncWorld) : Option SyncResult :=
  match w.age with
  | .throwMsg e =>
    some { success := false, error := some "Failed to check container age",
           details := some (exnMsg e) }
  | .ok logs =>
    match jsParseInt (jsTrim (logs.stdout.getD "")) with
    | none =>
      some { success := false, error := some "Sync aborted: no boot timestamp",
             details := some "The .boot-timestamp marker is missing. The container may be using an old startup script." }
    | some bootEpoch =>
      let age := w.nowEpoch - bootEpoch
      if age < MIN_BOOT_AGE_SECONDS then
        some { success := false, error := some "Sync aborted: container too young",
               details := some ("Container is " ++ toString age ++ "s old, minimum is " ++ toString MIN_BOOT_AGE_SECONDS ++ "s. This prevents a fresh container from overwriting backup data.") }
      else none

/-- Value of `parseInt(parts[0]?.trim() || '0', 10)` on the state probe output:
the `lastTouchedAt` occurrence count. -/
def stateTouchedVal (out : String) : Option Int :=
  jsParseInt (jsOrStr (jsTrim ((jsSplit out "---").getD 0 "")) "0")

/-- Value of `parseInt(parts[1]?.trim() || '0', 10)` on the state probe output:
the config-directory file count. -/
def stateFileCountVal (out : String) : Option Int :=
  jsParseInt (jsOrStr (jsTrim ((jsSplit out "---").getD 1 "")) "0")

/-- Safety-gate check C (sync.ts lines 116-140): the container must show
meaningful state (a `lastTouchedAt` usage marker or more than 3 files). -/
def checkStateStep (w : SyncWorld) : Option SyncResult :=
  match w.state with
  | .throwMsg e =>
    some { success := false, error := some "Failed to check container state",
           details := some (exnMsg e) }
  | .ok logs =>
    let out := logs.stdout.getD ""
    let hasTouched : Bool :=
      match stateTouchedVal out with
      | some n => decide (0 < n)
      | none => false
    let fileCount := stateFileCountVal out
    let small : Bool :=
      match fileCount with
      | some n => decide (n ≤ 3)
      | none => false
    if !hasTouched && small then
      some { success := false, error := some "Sync aborted: no meaningful state",
             details := some ("Container has " ++ jsNumStr fileCount ++ " file(s) and no lastTouchedAt metadata. This looks like a fresh template — refusing to overwrite R2 backup.") }
    else none

/-- The post-gate part of `syncToR2` (sync.ts lines 144-199): delete the
remote last-sync marker, run the archive/upload pipeline watching for the
`SYNC_OK`/`SYNC_FAIL` sentinels, and on `SYNC_OK` re-read the timestamp
marker.  Returns the result together with the commands issued. -/
def syncUpload (w : SyncWorld) : SyncResult × List Cmd :=
  match w.syncRun with
  | .throwMsg e =>
    ({ success := false, error := some "Sync error", details := some (exnMsg e) },
     [Cmd.rmLastSync, Cmd.archiveUpload])
  | .ok r =>
    if r.found && jsIncludes r.stdout "SYNC_OK" then
      match w.timestamp with
      | .throwMsg e =>
        ({ success := false, error := some "Sync error", details := some (exnMsg e) },
         [Cmd.rmLastSync, Cmd.archiveUpload, Cmd.readTimestamp])
      | .ok logs =>
        match logs.stdout.map jsTrim with
        | some lastSync =>
          if !lastSync.toList.isEmpty && isDateShaped lastSync then
            ({ success := true, lastSync := some lastSync },
             [Cmd.rmLastSync, Cmd.archiveUpload, Cmd.readTimestamp])
          else
            ({ success := true },
             [Cmd.rmLastSync, Cmd.archiveUpload, Cmd.readTimestamp])
        | none =>
          ({ success := true },
           [Cmd.rmLastSync, Cmd.archiveUpload, Cmd.readTimestamp])
    else
      let errDetail := if jsIncludes r.stdout "SYNC_FAIL" then "Sync command failed" else "Sync timed out"
      ({ success := false, error := some "Sync failed",
         details := some (jsSlice (errDetail ++ ": " ++ jsOrStr r.stderr r.stdout) 500) },
       [Cmd.rmLastSync, Cmd.archiveUpload])

/-- Shallow embedding of `syncToR2` (src/gateway/sync.ts): configuration
check, mount, the three-check safety gate (B and C skipped under `force`),
then the upload stage.  The second component is the ordered list of container
commands issued. -/
def syncToR2 (env : MoltbotEnv) (w : SyncWorld) (options : SyncOptions) :
    SyncResult × List Cmd :=
  let force := options.force.getD false
  if !jsTruthy env.R2_ACCESS_KEY_ID || !jsTruthy env.R2_SECRET_ACCESS_KEY ||
      !jsTruthy env.CF_ACCOUNT_ID then
    ({ success := false, error := some "R2 storage is not configured" }, [])
  else if !w.mounted then
    ({ success := false, error := some "Failed to mount R2 storage" }, [])
  else
    match checkRestoreStep w with
    | some r => (r, [Cmd.checkRestore])
    | none =>
      if force then
        let u := syncUpload w
        (u.1, Cmd.checkRestore :: u.2)
      else
        match checkAgeStep w with
        | some r => (r, [Cmd.checkRestore, Cmd.checkAge])
        | none =>
          match checkStateStep w with
          | some r => (r, [Cmd.checkRestore, Cmd.checkAge, Cmd.checkState])
          | none =>
            let u := syncUpload w
            (u.1, Cmd.checkRestore :: Cmd.checkAge :: Cmd.checkState :: u.2)

/-! ### Boot/restore protocol (start-moltbot.sh) -/

/-- Model of `should_restore_from_r2` from start-moltbot.sh (lines 54-88).  `parse`
models `date -d <str> +%s` returning `none` on an unparseable string (the
script substitutes epoch `0` in that case); `r2File`/`localFile` are the
contents of the two `.last-sync` marker files, `none` when the file is
absent. -/
def should_restore_from_r2 (parse : String → Option Int)
    (r2File localFile : Option String) : Bool :=
  match r2File with
  | none => false
  | some r2Time =>
    match localFile with
    | none => true
    | some localTime =>
      let r2Epoch := (parse r2Time).getD 0
      let localEpoch := (parse localTime).getD 0
      decide (localEpoch < r2Epoch)

/-! ### Polling utilities (src/gateway/utils.ts) -/

/-- Value of `Math.ceil(timeoutMs / pollIntervalMs)` on non-negative integers. -/
def mathCeilDiv (t p : Nat) : Nat := (t + p - 1) / p

/-- Loop body of `waitForProcess`: `statusAt n` is the status observed at the
`n`-th guard evaluation; the fuel is the remaining `maxAttempts - attempts`
budget, mirroring the guard `attempts < maxAttempts`.  Returns the number of
sleep/poll iterations performed. -/
def waitForProcessLoop (statusAt : Nat → String) : Nat → Nat → Nat
  | attempts, 0 => attempts
  | attempts, fuel + 1 =>
    if statusAt attempts = "running" then
      waitForProcessLoop statusAt (attempts + 1) fuel
    else attempts

/-- Model of `waitForProcess` (utils.ts lines 12-24), returning how many poll
iterations it performed before giving control back. -/
def waitForProcessIters (statusAt : Nat → String) (timeoutMs pollIntervalMs : Nat) : Nat :=
  waitForProcessLoop statusAt 0 (mathCeilDiv timeoutMs pollIntervalMs)

/-- Snapshot of `proc.getLogs()` at one call; calls are indexed in order. -/
structure OutSnapshot where
  stdout : Option String := none
  stderr : Option String := none
deriving DecidableEq

/-- Loop of `waitForOutput`: at iteration `i` the logs `logsAt i` are fetched
and scanned for any sentinel; after the fuel (the `maxAttempts` budget) is
exhausted a final `getLogs` call is made and `{found := false}` is returned.
The second component counts the `getLogs` calls made inside the loop. -/
def waitForOutputLoop (logsAt : Nat → OutSnapshot) (sentinels : List String) :
    Nat → Nat → FoundResult × Nat
  | i, 0 =>
    let logs := logsAt i
    ({ found := false, stdout := logs.stdout.getD "", stderr := logs.stderr.getD "" }, i)
  | i, fuel + 1 =>
    let logs := logsAt i
    let out := logs.stdout.getD ""
    if sentinels.any (fun s => jsIncludes out s) then
      ({ found := true, stdout := out, stderr := logs.stderr.getD "" }, i + 1)
    else
      waitForOutputLoop logsAt sentinels (i + 1) fuel

/-- Model of `waitForOutput` (utils.ts lines 34-53). -/
def waitForOutput (logsAt : Nat → OutSnapshot) (sentinels : List String)
    (timeoutMs pollIntervalMs : Nat) : FoundResult × Nat :=
  waitForOutputLoop logsAt sentinels 0 (mathCeilDiv timeoutMs pollIntervalMs)

/-! ### Relay bridge (src/routes/bridge.ts) -/

/-- Model of `timingSafeEqual` (bridge.ts lines 223-230).  A JavaScript string is
modelled as its sequence of UTF-16 code units; `charCodeAt` is list
indexing.  The fold accumulates `result |= a[i] ^ b[i]`. -/
def timingSafeEqual (a b : List Nat) : Bool :=
  if a.length ≠ b.length then false
  else (List.zipWith (fun x y => Nat.xor x y) a b).foldl (fun r x => Nat.lor r x) 0 == 0

/-- Close propagation, client→container direction (bridge.ts lines 342-345):
`containerWs.close(event.code, event.reason)` — the reason is forwarded
unmodified. -/
def clientCloseForward (code : Nat) (reason : List Char) : Nat × List Char :=
  (code, reason)

/-- Close propagation, container→client direction (bridge.ts lines 346-351):
the reason is defaulted to `''` and truncated to 120 code units plus `'...'`
when longer than 123. -/
def containerCloseForward (code : Nat) (reason : List Char) : Nat × List Char :=
  let r := reason
  let r := if 123 < r.length then r.take 120 ++ ['.', '.', '.'] else r
  (code, r)

/-! ### Concrete example inputs -/

/-- A fully configured environment. -/
def goodEnv : MoltbotEnv :=
  { R2_ACCESS_KEY_ID := some "key"
    R2_SECRET_ACCESS_KEY := some "secret"
    CF_ACCOUNT_ID := some "acct" }

/-- An environment with no access key configured. -/
def unconfiguredEnv : MoltbotEnv :=
  { R2_ACCESS_KEY_ID := none
    R2_SECRET_ACCESS_KEY := some "secret"
    CF_ACCOUNT_ID := some "acct" }

/-- A healthy world: mounted, restore-complete marker present, container 700 s
old, meaningful state (1 usage marker, 8 files), archive/upload prints
`SYNC_OK` and the re-read timestamp is a valid ISO date. -/
def goodWorld : SyncWorld :=
  { mounted := true
    restore := .ok { stdout := some "ok" }
    age := .ok { stdout := some "1000" }
    state := .ok { stdout := some "1\n---\n8\n" }
    nowEpoch := 1700
    syncRun := .ok { found := true, stdout := "SYNC_OK", stderr := "" }
    timestamp := .ok { stdout := some "2026-01-31T12:00:00+00:00" } }

/-- Like `goodWorld` but the restore-complete probe prints nothing (marker
absent). -/
def restoreMissingWorld : SyncWorld :=
  { goodWorld with restore := .ok { stdout := some "" } }

/-- Like `goodWorld` but the container booted 60 s ago. -/
def youngWorld : SyncWorld :=
  { goodWorld with age := .ok { stdout := some "1640" } }

/-- Like `goodWorld` but the state probe reports no usage marker and only two
files — a fresh template. -/
def freshStateWorld : SyncWorld :=
  { goodWorld with state := .ok { stdout := some "0\n---\n2\n" } }

/-- Like `goodWorld` but the re-read last-sync timestamp is not
date-shaped. -/
def badStampWorld : SyncWorld :=
  { goodWorld with timestamp := .ok { stdout := some "garbage" } }

/-! ### Shared helper lemmas -/

theorem nat_lor_eq_zero {m n : Nat} : Nat.lor m n = 0 ↔ m = 0 ∧ n = 0 := by
  constructor
  · intro h
    have hb : ∀ i, m.testBit i = false ∧ n.testBit i = false := by
      intro i
      have hz : (m ||| n).testBit i = false := by
        show Nat.testBit (Nat.lor m n) i = false
        rw [h]; simp [Nat.zero_testBit]
      rw [Nat.testBit_lor] at hz
      exact ⟨(Bool.or_eq_false_iff.mp hz).1, (Bool.or_eq_false_iff.mp hz).2⟩
    exact ⟨Nat.zero_of_testBit_eq_false fun i => (hb i).1,
           Nat.zero_of_testBit_eq_false fun i => (hb i).2⟩
  · rintro ⟨rfl, rfl⟩
    rfl

theorem foldl_lor_eq_zero (l : List Nat) (acc : Nat) :
    l.foldl (fun r x => Nat.lor r x) acc = 0 ↔ acc = 0 ∧ ∀ x ∈ l, x = 0 := by
  induction l generalizing acc with
  | nil => simp
  | cons y ys ih =>
    simp only [List.foldl_cons, ih, nat_lor_eq_zero, List.mem_cons]
    constructor
    · rintro ⟨⟨ha, hy⟩, hys⟩
      exact ⟨ha, fun x hx => hx.elim (fun hxy => hxy ▸ hy) (hys x)⟩
    · rintro ⟨ha, hall⟩
      exact ⟨⟨ha, hall y (Or.inl rfl)⟩, fun x hx => hall x (Or.inr hx)⟩

theorem zipWith_xor_eq_zero (a b : List Nat) (h : a.length = b.length) :
    (∀ x ∈ List.zipWith (fun x y => Nat.xor x y) a b, x = 0) ↔ a = b := by
  induction a generalizing b with
  | nil =>
    cases b with
    | nil => simp
    | cons _ _ => simp at h
  | cons x xs ih =>
    cases b with
    | nil => simp at h
    | cons y ys =>
      simp only [List.zipWith_cons_cons, List.mem_cons, List.cons.injEq]
      have hlen : xs.length = ys.length := by simpa using h
      constructor
      · intro hall
        have hx : Nat.xor x y = 0 := hall _ (Or.inl rfl)
        refine ⟨Nat.xor_eq_zero.mp hx, (ih ys hlen).mp fun z hz => hall z (Or.inr hz)⟩
      · rintro ⟨rfl, rfl⟩
        intro z hz
        rcases hz with hz | hz
        · rw [hz]; exact Nat.xor_self x
        · exact ((ih xs hlen).mpr rfl) z hz

theorem listStartsWith_append (x y : List Char) : listStartsWith (x ++ y) x = true := by
  induction x with
  | nil => simp [listStartsWith]
  | cons a as ih => simp [listStartsWith, ih]

theorem string_toList_append3 (a b c : String) :
    (a ++ b ++ c).toList = a.toList ++ (b.toList ++ c.toList) := by
  simp [String.toList]

theorem jsIncludes_middle (a b c : String) : jsIncludes (a ++ b ++ c) b = true := by
  unfold jsIncludes
  rw [List.any_eq_true]
  refine ⟨a.toList.length, List.mem_range.mpr ?_, ?_⟩
  · rw [string_toList_append3, List.length_append]
    omega
  · rw [string_toList_append3, List.drop_left]
    exact listStartsWith_append b.toList c.toList

theorem jsIncludes_of_decomp (s pre needle post : String)
    (h : s = pre ++ needle ++ post) : jsIncludes s needle = true := by
  rw [h]; exact jsIncludes_middle pre needle post

/-! ### Claim theorems -/

/-- C10: the bridge's constant-time comparison agrees with ordinary string
equality — `timingSafeEqual a b` returns `true` exactly when the two
code-unit sequences have the same length and the same codes at every index,
i.e. when they are the same string. -/
theorem timingSafeEqual_iff_eq (a b : List Nat) : timingSafeEqual a b = true ↔ a = b := by
  unfold timingSafeEqual
  by_cases h : a.length = b.length
  · simp only [h, ne_eq, not_true_eq_false, if_false, beq_iff_eq]
    rw [foldl_lor_eq_zero]
    simp only [true_and]
    exact zipWith_xor_eq_zero a b h
  · simp only [ne_eq, h, not_false_eq_true, if_true]
    constructor
    · intro hf; cases hf
    · intro hab; exact absurd (by rw [hab]) h

/-- C7 counterexample: in the client→container direction the bridge forwards
the close reason unmodified, so a 124-code-unit reason is relayed past the
protocol's 123 limit without truncation — the claim that overlong close
reasons are truncated in both directions is false. -/
theorem close_forward_claim_counterexample :
    (clientCloseForward 1000 (List.replicate 124 'a')).2 = List.replicate 124 'a' ∧
    ¬ ((clientCloseForward 1000 (List.replicate 124 'a')).2.length ≤ 123) := by
  constructor
  · rfl
  · simp [clientCloseForward]

/-- C7 amended: both close handlers forward the same close code; the
container→client handler truncates an overlong reason to 120 code units plus
`"..."` (so its forwarded reason never exceeds 123), while the
client→container handler forwards the reason unmodified (no truncation). -/
theorem close_forward_amended (code : Nat) (reason : List Char) :
    clientCloseForward code reason = (code, reason) ∧
    (containerCloseForward code reason).1 = code ∧
    (containerCloseForward code reason).2.length ≤ max reason.length 123 ∧
    (123 < reason.length →
      (containerCloseForward code reason).2 = reason.take 120 ++ ['.', '.', '.'] ∧
      (containerCloseForward code reason).2.length = 123) ∧
    (reason.length ≤ 123 → (containerCloseForward code reason).2 = reason) := by
  refine ⟨rfl, rfl, ?_, ?_, ?_⟩
  · by_cases h : 123 < reason.length
    · simp only [containerCloseForward, h, if_true]
      rw [List.length_append, List.length_take]
      simp only [List.length_cons, List.length_nil]
      omega
    · simp only [containerCloseForward, h, if_false]
      omega
  · intro h
    simp only [containerCloseForward, h, if_true]
    constructor
    · trivial
    · rw [List.length_append, List.length_take]
      simp only [List.length_cons, List.length_nil]
      omega
  · intro h
    have h' : ¬ 123 < reason.length := by omega
    simp only [containerCloseForward, h', if_false]

/-- C7 amended witness at a concrete overlong reason. -/
theorem close_forward_amended_witness :
    (containerCloseForward 1000 (List.replicate 124 'a')).2 =
      (List.replicate 124 'a').take 120 ++ ['.', '.', '.'] ∧
    (containerCloseForward 1000 (List.replicate 124 'a')).2.length = 123 :=
  (close_forward_amended 1000 (List.replicate 124 'a')).2.2.2.1 (by simp)

/-- C5: the restore-from-snapshot branch is taken exactly when the snapshot's
last-sync timestamp file exists and either no local last-sync file exists or
the snapshot timestamp parses to a strictly greater epoch than the local one,
an absent or unparseable timestamp being treated as epoch 0 (older); in
particular equal timestamps or a missing snapshot timestamp skip the
restore. -/
theorem should_restore_from_r2_iff (parse : String → Option Int)
    (r2File localFile : Option String) :
    should_restore_from_r2 parse r2File localFile = true ↔
      (r2File.isSome = true ∧ (localFile.isNone = true ∨
        (localFile.bind parse).getD 0 < (r2File.bind parse).getD 0)) := by
  cases r2File with
  | none => simp [should_restore_from_r2]
  | some r2Time =>
    cases localFile with
    | none => simp [should_restore_from_r2]
    | some localTime => simp [should_restore_from_r2]

theorem waitForProcessLoop_le (statusAt : Nat → String) (a fuel : Nat) :
    waitForProcessLoop statusAt a fuel ≤ a + fuel := by
  induction fuel generalizing a with
  | zero => simp [waitForProcessLoop]
  | succ n ih =>
    unfold waitForProcessLoop
    by_cases h : statusAt a = "running"
    · simp only [h, if_true]
      have := ih (a + 1)
      omega
    · simp only [h, if_false]
      omega

theorem waitForOutputLoop_snd_le (logsAt : Nat → OutSnapshot) (sentinels : List String)
    (i fuel : Nat) : (waitForOutputLoop logsAt sentinels i fuel).2 ≤ i + fuel := by
  induction fuel generalizing i with
  | zero => simp [waitForOutputLoop]
  | succ n ih =>
    unfold waitForOutputLoop
    by_cases h : sentinels.any (fun s => jsIncludes ((logsAt i).stdout.getD "") s) = true
    · simp only [h, if_true]
      omega
    · rw [Bool.not_eq_true] at h
      simp only [h, Bool.false_eq_true, if_false]
      have := ih (i + 1)
      omega

theorem waitForOutputLoop_no_sentinel (logsAt : Nat → OutSnapshot) (sentinels : List String)
    (i fuel : Nat)
    (h : ∀ j, j ≤ i + fuel → ∀ s ∈ sentinels, jsIncludes ((logsAt j).stdout.getD "") s = false) :
    waitForOutputLoop logsAt sentinels i fuel =
      ({ found := false, stdout := (logsAt (i + fuel)).stdout.getD "",
         stderr := (logsAt (i + fuel)).stderr.getD "" }, i + fuel) := by
  induction fuel generalizing i with
  | zero => simp [waitForOutputLoop]
  | succ n ih =>
    unfold waitForOutputLoop
    have hcond : sentinels.any (fun s => jsIncludes ((logsAt i).stdout.getD "") s) = false := by
      rw [List.any_eq_false]
      intro s hs
      simp [h i (by omega) s hs]
    simp only [hcond, Bool.false_eq_true, if_false]
    have hrec := ih (i + 1) (fun j hj s hs => h j (by omega) s hs)
    rw [hrec]
    have harith : i + 1 + n = i + (n + 1) := by omega
    rw [harith]

/-- C8: every poll-based wait is bounded — `waitForProcess` and
`waitForOutput` perform at most `ceil(timeoutMs / pollIntervalMs)` polling
iterations for any non-negative timeout and positive poll interval, and
`waitForOutput` always returns a result: when no sentinel ever appears in the
polled logs it returns `{found := false}` carrying the last captured
output. -/
theorem polling_bounded (statusAt : Nat → String) (logsAt : Nat → OutSnapshot)
    (sentinels : List String) (timeoutMs pollIntervalMs : Nat)
    (hp : 0 < pollIntervalMs) :
    waitForProcessIters statusAt timeoutMs pollIntervalMs ≤ mathCeilDiv timeoutMs pollIntervalMs ∧
    (waitForOutput logsAt sentinels timeoutMs pollIntervalMs).2 ≤ mathCeilDiv timeoutMs pollIntervalMs ∧
    ((∀ j, j ≤ mathCeilDiv timeoutMs pollIntervalMs →
        ∀ s ∈ sentinels, jsIncludes ((logsAt j).stdout.getD "") s = false) →
      (waitForOutput logsAt sentinels timeoutMs pollIntervalMs).1 =
        { found := false,
          stdout := (logsAt (mathCeilDiv timeoutMs pollIntervalMs)).stdout.getD "",
          stderr := (logsAt (mathCeilDiv timeoutMs pollIntervalMs)).stderr.getD "" }) := by
  refine ⟨?_, ?_, ?_⟩
  · have := waitForProcessLoop_le statusAt 0 (mathCeilDiv timeoutMs pollIntervalMs)
    simpa [waitForProcessIters] using this
  · have := waitForOutputLoop_snd_le logsAt sentinels 0 (mathCeilDiv timeoutMs pollIntervalMs)
    simpa [waitForOutput] using this
  · intro h
    have := waitForOutputLoop_no_sentinel logsAt sentinels 0
      (mathCeilDiv timeoutMs pollIntervalMs) (fun j hj s hs => h j (by omega) s hs)
    simp only [waitForOutput, this, Nat.zero_add]

/-- C8 witness: concrete run with a 5000 ms timeout, 500 ms poll interval, a
status that stays `running` and logs that never show the sentinel. -/
theorem polling_bounded_witness :
    waitForProcessIters (fun _ => "running") 5000 500 ≤ mathCeilDiv 5000 500 ∧
    (waitForOutput (fun _ => { stdout := some "working" }) ["SYNC_OK"] 5000 500).2 ≤
      mathCeilDiv 5000 500 ∧
    (waitForOutput (fun _ => { stdout := some "working" }) ["SYNC_OK"] 5000 500).1 =
      { found := false, stdout := "working", stderr := "" } := by
  have h := polling_bounded (fun _ => "running") (fun _ => { stdout := some "working" })
    ["SYNC_OK"] 5000 500 (by decide)
  refine ⟨h.1, h.2.1, ?_⟩
  have := h.2.2 (by decide)
  simpa using this

theorem syncToR2_reaches_gate (env : MoltbotEnv) (w : SyncWorld) (options : SyncOptions)
    (h1 : jsTruthy env.R2_ACCESS_KEY_ID = true)
    (h2 : jsTruthy env.R2_SECRET_ACCESS_KEY = true)
    (h3 : jsTruthy env.CF_ACCOUNT_ID = true)
    (hm : w.mounted = true) :
    syncToR2 env w options =
      match checkRestoreStep w with
      | some r => (r, [Cmd.checkRestore])
      | none =>
        if options.force.getD false then
          ((syncUpload w).1, Cmd.checkRestore :: (syncUpload w).2)
        else
          match checkAgeStep w with
          | some r => (r, [Cmd.checkRestore, Cmd.checkAge])
          | none =>
            match checkStateStep w with
            | some r => (r, [Cmd.checkRestore, Cmd.checkAge, Cmd.checkState])
            | none =>
              ((syncUpload w).1,
               Cmd.checkRestore :: Cmd.checkAge :: Cmd.checkState :: (syncUpload w).2) := by
  unfold syncToR2
  simp only [h1, h2, h3, hm, Bool.not_true, Bool.false_or, Bool.or_self, Bool.false_eq_true,
    if_false]

theorem syncUpload_cmds (w : SyncWorld) :
    (syncUpload w).2 = [Cmd.rmLastSync, Cmd.archiveUpload] ∨
    (syncUpload w).2 = [Cmd.rmLastSync, Cmd.archiveUpload, Cmd.readTimestamp] := by
  unfold syncUpload
  (repeat' split) <;> simp

theorem syncUpload_error_shape (w : SyncWorld) :
    (syncUpload w).1.error = none ∨
    (syncUpload w).1.error = some "Sync error" ∨
    (syncUpload w).1.error = some "Sync failed" := by
  unfold syncUpload
  (repeat' split) <;> simp

theorem syncUpload_filter_checks (w : SyncWorld) :
    (syncUpload w).2.filter (fun c => Cmd.isCheck c) = [] := by
  rcases syncUpload_cmds w with h | h <;> rw [h] <;> rfl

theorem syncToR2_not_configured (env : MoltbotEnv) (w : SyncWorld) (options : SyncOptions)
    (h : jsTruthy env.R2_ACCESS_KEY_ID = false ∨ jsTruthy env.R2_SECRET_ACCESS_KEY = false ∨
      jsTruthy env.CF_ACCOUNT_ID = false) :
    syncToR2 env w options =
      ({ success := false, error := some "R2 storage is not configured" }, []) := by
  unfold syncToR2
  rcases h with h | h | h <;> simp [h]

theorem syncToR2_mount_fail (env : MoltbotEnv) (w : SyncWorld) (options : SyncOptions)
    (h1 : jsTruthy env.R2_ACCESS_KEY_ID = true)
    (h2 : jsTruthy env.R2_SECRET_ACCESS_KEY = true)
    (h3 : jsTruthy env.CF_ACCOUNT_ID = true)
    (hm : w.mounted = false) :
    syncToR2 env w options =
      ({ success := false, error := some "Failed to mount R2 storage" }, []) := by
  unfold syncToR2
  simp [h1, h2, h3, hm]

theorem syncToR2_mutating_cases (env : MoltbotEnv) (w : SyncWorld) (options : SyncOptions) :
    (syncToR2 env w options).2.filter (fun c => Cmd.isStoreMutating c) = [] ∨
    ((syncToR2 env w options).1 = (syncUpload w).1 ∧
     (syncToR2 env w options).2.filter (fun c => Cmd.isStoreMutating c) =
       [Cmd.rmLastSync, Cmd.archiveUpload] ∧
     jsTruthy env.R2_ACCESS_KEY_ID = true ∧ jsTruthy env.R2_SECRET_ACCESS_KEY = true ∧
     jsTruthy env.CF_ACCOUNT_ID = true ∧ w.mounted = true ∧ checkRestoreStep w = none ∧
     (options.force.getD false = true ∨
       (checkAgeStep w = none ∧ checkStateStep w = none))) := by
  cases h1 : jsTruthy env.R2_ACCESS_KEY_ID with
  | false => left; rw [syncToR2_not_configured env w options (Or.inl h1)]; rfl
  | true =>
  cases h2 : jsTruthy env.R2_SECRET_ACCESS_KEY with
  | false => left; rw [syncToR2_not_configured env w options (Or.inr (Or.inl h2))]; rfl
  | true =>
  cases h3 : jsTruthy env.CF_ACCOUNT_ID with
  | false => left; rw [syncToR2_not_configured env w options (Or.inr (Or.inr h3))]; rfl
  | true =>
  cases hm : w.mounted with
  | false => left; rw [syncToR2_mount_fail env w options h1 h2 h3 hm]; rfl
  | true =>
  rw [syncToR2_reaches_gate env w options h1 h2 h3 hm]
  cases hcr : checkRestoreStep w with
  | some r => left; rfl
  | none =>
  cases hforce : options.force.getD false with
  | true =>
    right
    refine ⟨rfl, ?_, rfl, rfl, rfl, rfl, rfl, Or.inl rfl⟩
    rcases syncUpload_cmds w with hu | hu <;> rw [hu] <;> rfl
  | false =>
    cases hca : checkAgeStep w with
    | some r => left; rfl
    | none =>
    cases hcs : checkStateStep w with
    | some r => left; rfl
    | none =>
      right
      refine ⟨rfl, ?_, rfl, rfl, rfl, rfl, rfl, Or.inr ⟨rfl, rfl⟩⟩
      rcases syncUpload_cmds w with hu | hu <;> rw [hu] <;> rfl

theorem checkRestoreStep_marker_absent (w : SyncWorld) (logs : Logs)
    (hr : w.restore = JsOutcome.ok logs)
    (hok : jsIncludes (logs.stdout.getD "") "ok" = false) :
    checkRestoreStep w =
      some { success := false, error := some "Sync aborted: restore not complete",
             details := some "The .restore-complete marker is missing. The container may still be booting or is using an old startup script." } := by
  unfold checkRestoreStep
  rw [hr]
  simp [hok]

/-- C9: safety-gate atomicity — whenever `syncToR2` returns the failure of
the configuration check, the mount step, or safety-gate check A, B or C, no
store-mutating command has been issued; and whenever any store-mutating
command appears in the trace, the configuration and mount succeeded, check A
passed, and either `force` was set or checks B and C passed, the mutating
commands being exactly the marker removal followed by the archive/upload. -/
theorem gate_atomicity (env : MoltbotEnv) (w : SyncWorld) (options : SyncOptions) :
    (((syncToR2 env w options).1.error = some "R2 storage is not configured" ∨
      (syncToR2 env w options).1.error = some "Failed to mount R2 storage" ∨
      (syncToR2 env w options).1.error = some "Sync aborted: restore not complete" ∨
      (syncToR2 env w options).1.error = some "Failed to check restore-complete marker" ∨
      (syncToR2 env w options).1.error = some "Sync aborted: no boot timestamp" ∨
      (syncToR2 env w options).1.error = some "Sync aborted: container too young" ∨
      (syncToR2 env w options).1.error = some "Failed to check container age" ∨
      (syncToR2 env w options).1.error = some "Sync aborted: no meaningful state" ∨
      (syncToR2 env w options).1.error = some "Failed to check container state") →
      (syncToR2 env w options).2.filter (fun c => Cmd.isStoreMutating c) = []) ∧
    ((syncToR2 env w options).2.filter (fun c => Cmd.isStoreMutating c) ≠ [] →
      jsTruthy env.R2_ACCESS_KEY_ID = true ∧ jsTruthy env.R2_SECRET_ACCESS_KEY = true ∧
      jsTruthy env.CF_ACCOUNT_ID = true ∧ w.mounted = true ∧ checkRestoreStep w = none ∧
      (options.force.getD false = true ∨
        (checkAgeStep w = none ∧ checkStateStep w = none)) ∧
      (syncToR2 env w options).2.filter (fun c => Cmd.isStoreMutating c) =
        [Cmd.rmLastSync, Cmd.archiveUpload]) := by
  constructor
  · intro herr
    rcases syncToR2_mutating_cases env w options with hcase | hcase
    · exact hcase
    · exfalso
      rw [hcase.1] at herr
      rcases syncUpload_error_shape w with he | he | he <;> rw [he] at herr <;>
        rcases herr with h' | h' | h' | h' | h' | h' | h' | h' | h' <;> exact absurd h' (by decide)
  · intro hne
    rcases syncToR2_mutating_cases env w options with hcase | hcase
    · exact absurd hcase hne
    · exact ⟨hcase.2.2.1, hcase.2.2.2.1, hcase.2.2.2.2.1, hcase.2.2.2.2.2.1,
        hcase.2.2.2.2.2.2.1, hcase.2.2.2.2.2.2.2, hcase.2.1⟩

/-- C9 witness: with the access key unset the attempt fails as "not
configured" and no store-mutating command is in the trace. -/
theorem gate_atomicity_witness :
    (syncToR2 unconfiguredEnv goodWorld { force := some false }).2.filter
      (fun c => Cmd.isStoreMutating c) = [] :=
  (gate_atomicity unconfiguredEnv goodWorld { force := some false }).1 (Or.inl (by rfl))

/-- C1: once a forced sync reaches the safety gate, the only safety-gate
check it runs is check A (the restore-complete probe): checks B and C are
absent from the command trace, and when the restore-complete marker is absent
the forced call still fails with "Sync aborted: restore not complete". -/
theorem force_gate_exactly_checkA (env : MoltbotEnv) (w : SyncWorld)
    (h1 : jsTruthy env.R2_ACCESS_KEY_ID = true)
    (h2 : jsTruthy env.R2_SECRET_ACCESS_KEY = true)
    (h3 : jsTruthy env.CF_ACCOUNT_ID = true)
    (hm : w.mounted = true) :
    (syncToR2 env w { force := some true }).2.filter (fun c => Cmd.isCheck c) =
      [Cmd.checkRestore] ∧
    Cmd.checkAge ∉ (syncToR2 env w { force := some true }).2 ∧
    Cmd.checkState ∉ (syncToR2 env w { force := some true }).2 ∧
    (∀ logs, w.restore = JsOutcome.ok logs →
      jsIncludes (logs.stdout.getD "") "ok" = false →
      (syncToR2 env w { force := some true }).1 =
        { success := false, error := some "Sync aborted: restore not complete",
          details := some "The .restore-complete marker is missing. The container may still be booting or is using an old startup script." }) := by
  have hgate := syncToR2_reaches_gate env w { force := some true } h1 h2 h3 hm
  cases hcr : checkRestoreStep w with
  | some r =>
    have hEq : syncToR2 env w { force := some true } = (r, [Cmd.checkRestore]) := by
      rw [hgate, hcr]
    rw [hEq]
    refine ⟨rfl, ?_, ?_, ?_⟩
    · show Cmd.checkAge ∉ [Cmd.checkRestore]
      decide
    · show Cmd.checkState ∉ [Cmd.checkRestore]
      decide
    · intro logs hrst hok
      have habs := checkRestoreStep_marker_absent w logs hrst hok
      rw [hcr] at habs
      simpa using habs
  | none =>
    have hEq : syncToR2 env w { force := some true } =
        ((syncUpload w).1, Cmd.checkRestore :: (syncUpload w).2) := by
      rw [hgate, hcr]
      simp
    rw [hEq]
    refine ⟨?_, ?_, ?_, ?_⟩
    · show (Cmd.checkRestore :: (syncUpload w).2).filter (fun c => Cmd.isCheck c) =
        [Cmd.checkRestore]
      rcases syncUpload_cmds w with hu | hu <;> rw [hu] <;> rfl
    · show Cmd.checkAge ∉ Cmd.checkRestore :: (syncUpload w).2
      rcases syncUpload_cmds w with hu | hu <;> rw [hu] <;> decide
    · show Cmd.checkState ∉ Cmd.checkRestore :: (syncUpload w).2
      rcases syncUpload_cmds w with hu | hu <;> rw [hu] <;> decide
    · intro logs hrst hok
      have habs := checkRestoreStep_marker_absent w logs hrst hok
      rw [hcr] at habs
      cases habs
/-- C1 witness: forced sync against a world whose restore-complete probe
prints nothing. -/
theorem force_gate_exactly_checkA_witness :
    (syncToR2 goodEnv restoreMissingWorld { force := some true }).2.filter
      (fun c => Cmd.isCheck c) = [Cmd.checkRestore] ∧
    (syncToR2 goodEnv restoreMissingWorld { force := some true }).1 =
      { success := false, error := some "Sync aborted: restore not complete",
        details := some "The .restore-complete marker is missing. The container may still be booting or is using an old startup script." } := by
  have h := force_gate_exactly_checkA goodEnv restoreMissingWorld (by decide) (by decide)
    (by decide) (by decide)
  exact ⟨h.1, h.2.2.2 { stdout := some "" } rfl (by decide)⟩

/-- C6: in every sync attempt that passes the safety gate, the command that
deletes the remote last-sync marker is issued strictly before the
archive-and-upload command — the trace decomposes as a prefix of gate probes
followed immediately by the marker removal and then the archive/upload,
regardless of whether the removal itself succeeds. -/
theorem rm_before_archive (env : MoltbotEnv) (w : SyncWorld) (options : SyncOptions)
    (h1 : jsTruthy env.R2_ACCESS_KEY_ID = true)
    (h2 : jsTruthy env.R2_SECRET_ACCESS_KEY = true)
    (h3 : jsTruthy env.CF_ACCOUNT_ID = true)
    (hm : w.mounted = true)
    (hA : checkRestoreStep w = none)
    (hBC : options.force.getD false = true ∨
      (checkAgeStep w = none ∧ checkStateStep w = none)) :
    ∃ pre post, (syncToR2 env w options).2 =
        pre ++ Cmd.rmLastSync :: Cmd.archiveUpload :: post ∧
      Cmd.rmLastSync ∉ pre ∧ Cmd.archiveUpload ∉ pre := by
  rw [syncToR2_reaches_gate env w options h1 h2 h3 hm, hA]
  rcases hBC with hforce | ⟨hB, hC⟩
  · rw [hforce]
    rcases syncUpload_cmds w with hu | hu <;> rw [hu]
    · exact ⟨[Cmd.checkRestore], [], by simp, by decide, by decide⟩
    · exact ⟨[Cmd.checkRestore], [Cmd.readTimestamp], by simp, by decide, by decide⟩
  · cases hforce : options.force.getD false with
    | true =>
      rcases syncUpload_cmds w with hu | hu <;> rw [hu]
      · exact ⟨[Cmd.checkRestore], [], by simp, by decide, by decide⟩
      · exact ⟨[Cmd.checkRestore], [Cmd.readTimestamp], by simp, by decide, by decide⟩
    | false =>
      rw [hB, hC]
      rcases syncUpload_cmds w with hu | hu <;> rw [hu]
      · exact ⟨[Cmd.checkRestore, Cmd.checkAge, Cmd.checkState], [], by simp, by decide, by decide⟩
      · exact ⟨[Cmd.checkRestore, Cmd.checkAge, Cmd.checkState], [Cmd.readTimestamp],
          by simp, by decide, by decide⟩

/-- C6 witness: the healthy non-forced sync issues the marker removal right
before the archive/upload. -/
theorem rm_before_archive_witness :
    ∃ pre post, (syncToR2 goodEnv goodWorld { force := some false }).2 =
        pre ++ Cmd.rmLastSync :: Cmd.archiveUpload :: post ∧
      Cmd.rmLastSync ∉ pre ∧ Cmd.archiveUpload ∉ pre :=
  rm_before_archive goodEnv goodWorld { force := some false } (by decide) (by decide)
    (by decide) (by decide) (by decide) (Or.inr ⟨by decide, by decide⟩)

/-- C4: for a non-forced sync past check A with a boot-timestamp probe
result, a parseable boot epoch with age `< 600` s aborts with "container too
young" and a detail naming the exact age and the 600 threshold; age `≥ 600`
passes the check (the attempt goes on to issue the check C probe); an
unparseable or missing boot timestamp aborts with "no boot timestamp". -/
theorem container_age_check (env : MoltbotEnv) (w : SyncWorld)
    (h1 : jsTruthy env.R2_ACCESS_KEY_ID = true)
    (h2 : jsTruthy env.R2_SECRET_ACCESS_KEY = true)
    (h3 : jsTruthy env.CF_ACCOUNT_ID = true)
    (hm : w.mounted = true)
    (hA : checkRestoreStep w = none)
    (logs : Logs) (hage : w.age = JsOutcome.ok logs) :
    (jsParseInt (jsTrim (logs.stdout.getD "")) = none →
      (syncToR2 env w { force := some false }).1 =
        { success := false, error := some "Sync aborted: no boot timestamp",
          details := some "The .boot-timestamp marker is missing. The container may be using an old startup script." }) ∧
    (∀ bootEpoch, jsParseInt (jsTrim (logs.stdout.getD "")) = some bootEpoch →
      (w.nowEpoch - bootEpoch < 600 →
        (syncToR2 env w { force := some false }).1.success = false ∧
        (syncToR2 env w { force := some false }).1.error =
          some "Sync aborted: container too young" ∧
        ∃ d, (syncToR2 env w { force := some false }).1.details = some d ∧
          jsIncludes d (toString (w.nowEpoch - bootEpoch)) = true ∧
          jsIncludes d "600" = true) ∧
      (600 ≤ w.nowEpoch - bootEpoch →
        checkAgeStep w = none ∧
        Cmd.checkState ∈ (syncToR2 env w { force := some false }).2)) := by
  have hgate := syncToR2_reaches_gate env w { force := some false } h1 h2 h3 hm
  constructor
  · intro hparse
    have hca : checkAgeStep w =
        some { success := false, error := some "Sync aborted: no boot timestamp",
               details := some "The .boot-timestamp marker is missing. The container may be using an old startup script." } := by
      unfold checkAgeStep
      rw [hage]
      simp [hparse]
    have hEq : (syncToR2 env w { force := some false }).1 =
        { success := false, error := some "Sync aborted: no boot timestamp",
          details := some "The .boot-timestamp marker is missing. The container may be using an old startup script." } := by
      rw [hgate, hA, hca]
      simp
    exact hEq
  · intro bootEpoch hparse
    constructor
    · intro hyoung
      have hca : checkAgeStep w =
          some { success := false, error := some "Sync aborted: container too young",
                 details := some ("Container is " ++ toString (w.nowEpoch - bootEpoch) ++
                   "s old, minimum is " ++ toString MIN_BOOT_AGE_SECONDS ++
                   "s. This prevents a fresh container from overwriting backup data.") } := by
        unfold checkAgeStep
        rw [hage]
        have hlt : w.nowEpoch - bootEpoch < MIN_BOOT_AGE_SECONDS := hyoung
        simp [hparse, hlt]
      have hEq : (syncToR2 env w { force := some false }).1 =
          { success := false, error := some "Sync aborted: container too young",
            details := some ("Container is " ++ toString (w.nowEpoch - bootEpoch) ++
              "s old, minimum is " ++ toString MIN_BOOT_AGE_SECONDS ++
              "s. This prevents a fresh container from overwriting backup data.") } := by
        rw [hgate, hA, hca]
        simp
      rw [hEq]
      refine ⟨rfl, rfl, ?_⟩
      refine ⟨_, rfl, ?_, ?_⟩
      · refine jsIncludes_of_decomp _ "Container is " (toString (w.nowEpoch - bootEpoch))
          ("s old, minimum is " ++ toString MIN_BOOT_AGE_SECONDS ++
            "s. This prevents a fresh container from overwriting backup data.") ?_
        simp [String.append_assoc]
      · exact jsIncludes_of_decomp _
          ("Container is " ++ toString (w.nowEpoch - bootEpoch) ++ "s old, minimum is ")
          "600" "s. This prevents a fresh container from overwriting backup data." rfl
    · intro hold
      have hca : checkAgeStep w = none := by
        unfold checkAgeStep
        rw [hage]
        have hnlt : ¬ (w.nowEpoch - bootEpoch < MIN_BOOT_AGE_SECONDS) := by
          unfold MIN_BOOT_AGE_SECONDS
          omega
        simp [hparse, hnlt]
      refine ⟨hca, ?_⟩
      rw [hgate, hA, hca]
      cases hcs : checkStateStep w with
      | some r => simp
      | none =>
        simp only []
        rcases syncUpload_cmds w with hu | hu <;> rw [hu] <;> simp

/-- C4 witness: a container booted 60 s ago aborts with the exact age and
threshold in the detail; `goodWorld` (700 s old) passes the age check. -/
theorem container_age_check_witness :
    ((syncToR2 goodEnv youngWorld { force := some false }).1.success = false ∧
     (syncToR2 goodEnv youngWorld { force := some false }).1.error =
       some "Sync aborted: container too young" ∧
     ∃ d, (syncToR2 goodEnv youngWorld { force := some false }).1.details = some d ∧
       jsIncludes d (toString ((1700 : Int) - 1640)) = true ∧
       jsIncludes d "600" = true) ∧
    checkAgeStep goodWorld = none := by
  constructor
  · exact ((container_age_check goodEnv youngWorld (by decide) (by decide) (by decide)
      (by decide) (by decide) { stdout := some "1640" } rfl).2 1640 (by decide)).1 (by decide)
  · exact (((container_age_check goodEnv goodWorld (by decide) (by decide) (by decide)
      (by decide) (by decide) { stdout := some "1000" } rfl).2 1000 (by decide)).2
      (by decide)).1

theorem checkStateStep_parsed (w : SyncWorld) (logs : Logs)
    (hstate : w.state = JsOutcome.ok logs) (n₁ n₂ : Nat)
    (ht : stateTouchedVal (logs.stdout.getD "") = some (n₁ : Int))
    (hf : stateFileCountVal (logs.stdout.getD "") = some (n₂ : Int)) :
    checkStateStep w =
      if n₁ = 0 ∧ n₂ ≤ 3 then
        some { success := false, error := some "Sync aborted: no meaningful state",
               details := some ("Container has " ++ toString ((n₂ : Int)) ++
                 " file(s) and no lastTouchedAt metadata. This looks like a fresh template — refusing to overwrite R2 backup.") }
      else none := by
  unfold checkStateStep
  rw [hstate]
  simp only [ht, hf, jsNumStr]
  by_cases hz : n₁ = 0
  · by_cases hs : n₂ ≤ 3
    · have e1 : decide ((0 : Int) < (n₁ : Int)) = false := by
        subst hz; decide
      have e2 : decide ((n₂ : Int) ≤ (3 : Int)) = true :=
        decide_eq_true (by exact_mod_cast hs)
      simp [e1, e2, hz, hs]
    · have e2 : decide ((n₂ : Int) ≤ (3 : Int)) = false :=
        decide_eq_false (by exact_mod_cast hs)
      simp [e2, hs]
  · have hpos : 0 < n₁ := Nat.pos_of_ne_zero hz
    have e1 : decide ((0 : Int) < (n₁ : Int)) = true :=
      decide_eq_true (by exact_mod_cast hpos)
    simp [e1, hz]

/-- C3: for a non-forced sync in which check C runs and both probe numbers
parse as naturals, the attempt aborts with "Sync aborted: no meaningful
state" exactly when the `lastTouchedAt` count is 0 and the file count is at
most 3 (so any file count `> 3` passes regardless of the usage count), and
the abort detail names the observed file count and the missing
`lastTouchedAt` usage marker. -/
theorem meaningful_state_check (env : MoltbotEnv) (w : SyncWorld)
    (h1 : jsTruthy env.R2_ACCESS_KEY_ID = true)
    (h2 : jsTruthy env.R2_SECRET_ACCESS_KEY = true)
    (h3 : jsTruthy env.CF_ACCOUNT_ID = true)
    (hm : w.mounted = true)
    (hA : checkRestoreStep w = none)
    (hB : checkAgeStep w = none)
    (logs : Logs) (hstate : w.state = JsOutcome.ok logs)
    (n₁ n₂ : Nat)
    (ht : stateTouchedVal (logs.stdout.getD "") = some (n₁ : Int))
    (hf : stateFileCountVal (logs.stdout.getD "") = some (n₂ : Int)) :
    ((syncToR2 env w { force := some false }).1.error =
        some "Sync aborted: no meaningful state" ↔ (n₁ = 0 ∧ n₂ ≤ 3)) ∧
    (n₁ = 0 ∧ n₂ ≤ 3 →
      (syncToR2 env w { force := some false }).1.success = false ∧
      ∃ d, (syncToR2 env w { force := some false }).1.details = some d ∧
        jsIncludes d (toString ((n₂ : Int))) = true ∧
        jsIncludes d "no lastTouchedAt" = true) := by
  have hgate := syncToR2_reaches_gate env w { force := some false } h1 h2 h3 hm
  have hcs := checkStateStep_parsed w logs hstate n₁ n₂ ht hf
  by_cases hc : n₁ = 0 ∧ n₂ ≤ 3
  · rw [if_pos hc] at hcs
    have hEq : (syncToR2 env w { force := some false }).1 =
        { success := false, error := some "Sync aborted: no meaningful state",
          details := some ("Container has " ++ toString ((n₂ : Int)) ++
            " file(s) and no lastTouchedAt metadata. This looks like a fresh template — refusing to overwrite R2 backup.") } := by
      rw [hgate, hA, hB, hcs]
      simp
    rw [hEq]
    refine ⟨⟨fun _ => hc, fun _ => rfl⟩, fun _ => ⟨rfl, ?_⟩⟩
    refine ⟨_, rfl, ?_, ?_⟩
    · exact jsIncludes_of_decomp _ "Container has " (toString ((n₂ : Int)))
        " file(s) and no lastTouchedAt metadata. This looks like a fresh template — refusing to overwrite R2 backup." rfl
    · refine jsIncludes_of_decomp _
        ("Container has " ++ toString ((n₂ : Int)) ++ " file(s) and ")
        "no lastTouchedAt"
        " metadata. This looks like a fresh template — refusing to overwrite R2 backup." ?_
      have hsplit : (" file(s) and no lastTouchedAt metadata. This looks like a fresh template — refusing to overwrite R2 backup." : String) =
          " file(s) and " ++ "no lastTouchedAt" ++ " metadata. This looks like a fresh template — refusing to overwrite R2 backup." := by decide
      rw [hsplit]
      simp [String.append_assoc]
  · rw [if_neg hc] at hcs
    have hEq : syncToR2 env w { force := some false } =
        ((syncUpload w).1,
         Cmd.checkRestore :: Cmd.checkAge :: Cmd.checkState :: (syncUpload w).2) := by
      rw [hgate, hA, hB, hcs]
      simp
    rw [hEq]
    constructor
    · constructor
      · intro herr
        exfalso
        rcases syncUpload_error_shape w with he | he | he <;> rw [he] at herr <;>
          exact absurd herr (by decide)
      · intro h
        exact absurd h hc
    · intro h
      exact absurd h hc

/-- C3 witness: usage count 0 and file count 2 abort with a detail mentioning
"2" and the missing usage marker. -/
theorem meaningful_state_check_witness :
    ((syncToR2 goodEnv freshStateWorld { force := some false }).1.error =
        some "Sync aborted: no meaningful state" ↔ ((0 : Nat) = 0 ∧ (2 : Nat) ≤ 3)) ∧
    ((syncToR2 goodEnv freshStateWorld { force := some false }).1.success = false ∧
      ∃ d, (syncToR2 goodEnv freshStateWorld { force := some false }).1.details = some d ∧
        jsIncludes d (toString (((2 : Nat) : Int))) = true ∧
        jsIncludes d "no lastTouchedAt" = true) := by
  have h := meaningful_state_check goodEnv freshStateWorld (by decide) (by decide) (by decide)
    (by decide) (by decide) (by decide) { stdout := some "0\n---\n2\n" } rfl 0 2
    (by decide) (by decide)
  exact ⟨h.1, h.2 ⟨rfl, by decide⟩⟩

/-- C2 counterexample: a sync attempt that passes the gate, observes
`SYNC_OK`, and then re-reads a remote timestamp that is not date-shaped still
returns `success := true` (merely omitting `lastSync`) — it does not report
failure, refuting the claim that success requires a present, date-shaped
re-read timestamp. -/
theorem verify_claim_counterexample :
    badStampWorld.timestamp = JsOutcome.ok { stdout := some "garbage" } ∧
    isDateShaped (jsTrim "garbage") = false ∧
    (syncToR2 goodEnv badStampWorld { force := some false }).1 =
      { success := true } := by
  refine ⟨rfl, by decide, by decide⟩

/-- C2 amended: once the archive/upload stage runs, the result is
`success := true` exactly when the sentinel wait observed `SYNC_OK` (and the
subsequent timestamp read did not throw); the re-read timestamp's presence
and date-shape decide only whether it is reported as `lastSync` — an absent
or non-date-shaped timestamp still yields success, just without `lastSync`.
A `SYNC_FAIL` sentinel or a timeout yields a failure carrying the available
process output, truncated to 500 characters. -/
theorem verify_amended (w : SyncWorld) :
    (∀ r, w.syncRun = JsOutcome.ok r →
      (r.found && jsIncludes r.stdout "SYNC_OK") = true →
      ∀ logs, w.timestamp = JsOutcome.ok logs →
        (syncUpload w).1.success = true ∧
        (∀ s, logs.stdout.map jsTrim = some s →
          (!s.toList.isEmpty && isDateShaped s) = true →
          (syncUpload w).1.lastSync = some s) ∧
        (∀ s, logs.stdout.map jsTrim = some s →
          (!s.toList.isEmpty && isDateShaped s) = false →
          (syncUpload w).1.lastSync = none) ∧
        (logs.stdout.map jsTrim = none → (syncUpload w).1.lastSync = none)) ∧
    (∀ r, w.syncRun = JsOutcome.ok r →
      (r.found && jsIncludes r.stdout "SYNC_OK") = false →
      (syncUpload w).1 =
        { success := false, error := some "Sync failed",
          details := some (jsSlice ((if jsIncludes r.stdout "SYNC_FAIL" then
            "Sync command failed" else "Sync timed out") ++ ": " ++
            jsOrStr r.stderr r.stdout) 500) }) := by
  constructor
  · intro r hr hok logs hts
    cases hs : logs.stdout.map jsTrim with
    | none =>
      have hEq : (syncUpload w).1 = { success := true } := by
        unfold syncUpload
        rw [hr, hts]
        simp [hok, hs]
      rw [hEq]
      refine ⟨rfl, ?_, ?_, fun _ => rfl⟩
      · intro s' h1
        cases h1
      · intro s' h1
        cases h1
    | some s =>
      by_cases hd : (¬ s.data = [] ∧ isDateShaped s = true)
      · have hdb : (!s.toList.isEmpty && isDateShaped s) = true := by
          simp [String.toList, hd.1, hd.2]
        have hEq : (syncUpload w).1 = { success := true, lastSync := some s } := by
          unfold syncUpload
          rw [hr, hts]
          simp [hok, hs, hd]
        rw [hEq]
        refine ⟨rfl, ?_, ?_, ?_⟩
        · intro s' h1 _
          cases h1
          rfl
        · intro s' h1 h2
          cases h1
          rw [hdb] at h2
          cases h2
        · intro h1
          cases h1
      · have hdb : (!s.toList.isEmpty && isDateShaped s) = false := by
          cases hb : (!s.toList.isEmpty && isDateShaped s) with
          | false => rfl
          | true =>
            exfalso
            apply hd
            have hb' := hb
            rw [Bool.and_eq_true] at hb'
            refine ⟨?_, hb'.2⟩
            intro hnil
            have hemp : s.toList.isEmpty = true := by
              simp [String.toList, hnil]
            rw [hemp] at hb'
            simp at hb'
        have hEq : (syncUpload w).1 = { success := true } := by
          unfold syncUpload
          rw [hr, hts]
          simp [hok, hs, hd]
        rw [hEq]
        refine ⟨rfl, ?_, ?_, ?_⟩
        · intro s' h1 h2
          cases h1
          rw [hdb] at h2
          cases h2
        · intro s' h1 _
          rfl
        · intro h1
          cases h1
  · intro r hr hok
    unfold syncUpload
    rw [hr]
    simp [hok]

/-- C2 amended witness: with `SYNC_OK` observed, a date-shaped re-read
timestamp is reported back as `lastSync`, while a non-date-shaped one yields
success without `lastSync`. -/
theorem verify_amended_witness :
    (syncUpload goodWorld).1.lastSync = some "2026-01-31T12:00:00+00:00" ∧
    (syncUpload badStampWorld).1.success = true ∧
    (syncUpload badStampWorld).1.lastSync = none := by
  have hgood := (verify_amended goodWorld).1
    { found := true, stdout := "SYNC_OK", stderr := "" } rfl (by decide)
    { stdout := some "2026-01-31T12:00:00+00:00" } rfl
  have hbad := (verify_amended badStampWorld).1
    { found := true, stdout := "SYNC_OK", stderr := "" } rfl (by decide)
    { stdout := some "garbage" } rfl
  refine ⟨?_, hbad.1, ?_⟩
  · exact hgood.2.1 "2026-01-31T12:00:00+00:00" (by decide) (by decide)
  · exact hbad.2.2.1 "garbage" (by decide) (by decide)

end Moltworker
